import Mathlib

/-!
Shallow embedding of the spatial filtering core of the `improver`
repository: the recursive (IIR) smoothing filter (`RecursiveFilter`),
the square-kernel neighbourhood averager (`SquareNeighbourhood`) and
their shared halo-padding routine.  The implementation modules
themselves are not present in the repository snapshot (only their unit
tests are), so the definitions below are modelled from the
specification, with every behavioural choice pinned down by the
numeric fixtures asserted in
`src/lib/improver/tests/nbhood/nbhood/test_RecursiveFilter.py` and
`src/improver_tests/nbhood/square_kernel/test_SquareNeighbourhood.py`.
Machine floats are modelled as exact rationals; NaN payloads are
modelled as `Option` values; masked arrays carry an explicit boolean
mask; Python exceptions are modelled with `Except`.
-/

set_option allowUnsafeReducibility true
attribute [semireducible] Rat.add Rat.mul Rat.sub Rat.inv Rat.neg

namespace Improver

/-- A 2D plane of rational values.  `val i j` is the value at row `i`,
column `j`; indices outside `rows`/`cols` are don't-care. -/
structure Grid where
  rows : Nat
  cols : Nat
  val : Nat → Nat → ℚ

/-- A plane of one constant value. -/
def constGrid (rows cols : Nat) (v : ℚ) : Grid :=
  ⟨rows, cols, fun _ _ => v⟩

/-- Modelled from the spec: edge-replication index resolution.  For a
padded index `i` with halo `h` over an axis of length `n`, the source
index is the nearest real-grid index. -/
def repIdx (n h i : Nat) : Nat :=
  if i < h then 0 else min (i - h) (n - 1)

/-- Modelled from the spec: `GridPadder` (§4.1).  Pads a plane with
`hy` extra rows above and below and `hx` extra columns left and right,
filling the halo by edge replication. -/
def pad_with_halo (g : Grid) (hy hx : Nat) : Grid :=
  ⟨g.rows + 2 * hy, g.cols + 2 * hx,
    fun i j => g.val (repIdx g.rows hy i) (repIdx g.cols hx j)⟩

/-- Modelled from the spec: `SquareNeighbourhood.pad_cube_with_halo`,
the padding routine the recursive filter and `set_alphas` actually
call.  The cited tests (`Test_set_alphas`, `Test_run_recursion`) show
that a 5x5 plane padded with width parameters (1, 1) becomes 9x9
("padded with 4 extra rows/columns", result sliced back with
`[2:-2, 2:-2]`), i.e. the halo depth per side is twice the width
parameter. -/
def pad_cube_with_halo (g : Grid) (wy wx : Nat) : Grid :=
  pad_with_halo g (2 * wy) (2 * wx)

/-- Strips `hy` rows and `hx` columns from each side of a plane. -/
def strip_halo (g : Grid) (hy hx : Nat) : Grid :=
  ⟨g.rows - 2 * hy, g.cols - 2 * hx, fun i j => g.val (i + hy) (j + hx)⟩

/-- Modelled from the spec: the one-directional forward recurrence
along a line (§4.3): `output[0] = input[0]` and
`output[j+1] = (1 - α[j+1]) * input[j+1] + α[j+1] * output[j]`. -/
def fwdLine (f a : Nat → ℚ) : Nat → ℚ
  | 0 => f 0
  | j + 1 => (1 - a (j + 1)) * f (j + 1) + a (j + 1) * fwdLine f a j

/-- Modelled from the spec: the backward recurrence, the mirror of
`fwdLine` scanning from the last index `last` down to `j`. -/
def bwdLine (f a : Nat → ℚ) (last j : Nat) : ℚ :=
  fwdLine (fun k => f (last - k)) (fun k => a (last - k)) (last - j)

/-- Modelled from the spec: `RecursiveFilter.recurse_forward`.  Applies
the forward recurrence along `axis` (0 = rows, i.e. y; 1 = columns,
i.e. x) independently for every orthogonal line, with per-cell alpha
coefficients. -/
def recurse_forward (g alphas : Grid) (axis : Nat) : Grid :=
  if axis = 0 then
    ⟨g.rows, g.cols, fun i j =>
      fwdLine (fun k => g.val k j) (fun k => alphas.val k j) i⟩
  else
    ⟨g.rows, g.cols, fun i j => fwdLine (g.val i) (alphas.val i) j⟩

/-- Modelled from the spec: `RecursiveFilter.recurse_backward`, the
mirror scan of `recurse_forward`. -/
def recurse_backward (g alphas : Grid) (axis : Nat) : Grid :=
  if axis = 0 then
    ⟨g.rows, g.cols, fun i j =>
      bwdLine (fun k => g.val k j) (fun k => alphas.val k j) (g.rows - 1) i⟩
  else
    ⟨g.rows, g.cols, fun i j =>
      bwdLine (g.val i) (alphas.val i) (g.cols - 1) j⟩

/-- One iteration of the full recursion: forward then backward along x
(axis 1), then forward then backward along y (axis 0), each pass
consuming the previous pass's output. -/
def filterStep (g ax ay : Grid) : Grid :=
  recurse_backward (recurse_forward
    (recurse_backward (recurse_forward g ax 1) ax 1) ay 0) ay 0

/-- Modelled from the spec: `RecursiveFilter.run_recursion` on an
already padded plane, repeated for `iterations` total iterations, each
iteration consuming the previous iteration's output. -/
def run_recursion (g ax ay : Grid) : Nat → Grid
  | 0 => g
  | n + 1 => run_recursion (filterStep g ax ay) ax ay n

/-- Cellwise average of two planes of the same shape. -/
def avgGrid (g1 g2 : Grid) : Grid :=
  ⟨g1.rows, g1.cols, fun i j => (g1.val i j + g2.val i j) / 2⟩

/-- Modelled from the spec: the recursion exactly as the spec words it
(§4.3 full recursion, steps 1-2): apply the forward pass and the
backward pass to the same input along x and average the two results,
then the same along y on the x-smoothed plane.  Kept separate from
`run_recursion` so the two readings can be compared on the documented
fixtures. -/
def run_recursion_averaged (g ax ay : Grid) : Nat → Grid
  | 0 => g
  | n + 1 =>
    run_recursion_averaged
      (let xsm := avgGrid (recurse_forward g ax 1) (recurse_backward g ax 1)
       avgGrid (recurse_forward xsm ay 0) (recurse_backward xsm ay 0))
      ax ay n

/-- Configuration errors of the filtering core.  Each constructor names
the offending parameter and carries its invalid value, per the error
messages asserted in the unit tests. -/
inductive ConfigError where
  | invalidAlphaX (value : ℚ)
  | invalidAlphaY (value : ℚ)
  | invalidIterations (value : Int)
  | alphasShapeMismatch (alphasShape dataShape : Nat × Nat)
  | alphaAndCubeBothSet
  | alphaAndCubeBothUnset
  | invalidSumOrFraction (value : String)
deriving DecidableEq

/-- The error message attached to each configuration error, following
the message patterns asserted by the unit tests. -/
def ConfigError.message : ConfigError → String
  | .invalidAlphaX v => "Invalid alpha_x: must be > 0 and < 1: " ++ toString v
  | .invalidAlphaY v => "Invalid alpha_y: must be > 0 and < 1: " ++ toString v
  | .invalidIterations v =>
      "Invalid number of iterations: must be >= 1: " ++ toString v
  | .alphasShapeMismatch a d =>
      "Dimensions of alphas array do not match dimensions of data array: "
        ++ toString a.1 ++ "x" ++ toString a.2 ++ " vs "
        ++ toString d.1 ++ "x" ++ toString d.2
  | .alphaAndCubeBothSet =>
      "A cube of alpha values and a single float value for alpha have both "
        ++ "been provided: only one source of alphas may be used"
  | .alphaAndCubeBothUnset =>
      "A value for alpha must be set if alphas_cube is set to None"
  | .invalidSumOrFraction v =>
      "The sum_or_fraction option is invalid: " ++ v

/-- Constructor-time options of `RecursiveFilter`, held after
validation. -/
structure RFConfig where
  alpha_x : Option ℚ
  alpha_y : Option ℚ
  iterations : Option Int
  edge_width : Nat

/-- Validation of one optional scalar alpha: if supplied it must lie
strictly between 0 and 1. -/
def checkAlpha (a : Option ℚ) (mk : ℚ → ConfigError) :
    Except ConfigError Unit :=
  match a with
  | none => .ok ()
  | some v => if 0 < v ∧ v < 1 then .ok () else .error (mk v)

/-- Modelled from the spec: `RecursiveFilter.__init__`.  Validates the
optional scalar alphas and the iteration count before anything else
runs; on success the options are stored unchanged (never clamped). -/
def rfInit (alpha_x alpha_y : Option ℚ) (iterations : Option Int)
    (edge_width : Nat) : Except ConfigError RFConfig :=
  match checkAlpha alpha_x ConfigError.invalidAlphaX with
  | .error e => .error e
  | .ok _ =>
    match checkAlpha alpha_y ConfigError.invalidAlphaY with
    | .error e => .error e
    | .ok _ =>
      match iterations with
      | some n =>
        if n < 1 then .error (.invalidIterations n)
        else .ok ⟨alpha_x, alpha_y, iterations, edge_width⟩
      | none => .ok ⟨alpha_x, alpha_y, iterations, edge_width⟩

/-- Modelled from the spec: `RecursiveFilter.set_alphas`.  Resolves the
per-direction alpha coefficients to a plane at the padded grid's
shape: a scalar is broadcast to the data shape and padded; a supplied
alphas plane must match the data shape and is then padded; supplying
both or neither of the scalar and the plane is an error. -/
def set_alphas (g : Grid) (alpha : Option ℚ) (alphas_cube : Option Grid)
    (edge_width : Nat) : Except ConfigError Grid :=
  match alphas_cube with
  | none =>
    match alpha with
    | none => .error .alphaAndCubeBothUnset
    | some a =>
        .ok (pad_cube_with_halo (constGrid g.rows g.cols a)
          edge_width edge_width)
  | some ac =>
    match alpha with
    | some _ => .error .alphaAndCubeBothSet
    | none =>
      if ac.rows = g.rows ∧ ac.cols = g.cols then
        .ok (pad_cube_with_halo ac edge_width edge_width)
      else
        .error (.alphasShapeMismatch (ac.rows, ac.cols) (g.rows, g.cols))

/-- A 2D plane as the filtering core receives it: a payload that may
be NaN (`none`) per cell, and a validity mask (`true` = masked). -/
structure MPlane where
  rows : Nat
  cols : Nat
  data : Nat → Nat → Option ℚ
  mask : Nat → Nat → Bool

/-- The working value plane of the recursive filter: invalid cells
(masked or NaN) are substituted with 0 before the recursion runs. -/
def zeroedGrid (p : MPlane) : Grid :=
  ⟨p.rows, p.cols, fun i j =>
    if p.mask i j then 0 else (p.data i j).getD 0⟩

/-- The numeric value the recursive filter produces at cell `(i, j)`
of the original grid: pad the zero-filled plane, run the recursion,
strip the halo. -/
def rfValue (ax ay : Grid) (ew iters : Nat) (p : MPlane) (i j : Nat) : ℚ :=
  (strip_halo (run_recursion (pad_cube_with_halo (zeroedGrid p) ew ew)
    ax ay iters) (2 * ew) (2 * ew)).val i j

/-- The per-plane computation of `RecursiveFilter.process` after the
alphas have been resolved: zero-fill invalid cells, pad, run the
recursion, strip the halo, and re-apply the original validity mask to
the final unpadded result. -/
def rfProcessRun (ax ay : Grid) (ew iters : Nat) (p : MPlane) : MPlane :=
  ⟨p.rows, p.cols, fun i j => some (rfValue ax ay ew iters p i j), p.mask⟩

/-- Modelled from the spec: `RecursiveFilter.process` on one 2D plane:
resolve the alphas for each direction (fatal configuration errors
surface here, before any array computation), then run the padded
recursion and re-apply the input mask. -/
def rfProcess (cfg : RFConfig) (p : MPlane)
    (alphas_x alphas_y : Option Grid) : Except ConfigError MPlane :=
  match set_alphas (zeroedGrid p) cfg.alpha_x alphas_x cfg.edge_width with
  | .error e => .error e
  | .ok ax =>
    match set_alphas (zeroedGrid p) cfg.alpha_y alphas_y cfg.edge_width with
    | .error e => .error e
    | .ok ay =>
      .ok (rfProcessRun ax ay cfg.edge_width (cfg.iterations.getD 1).toNat p)

/-- Replace one cell's payload with NaN. -/
def setNaN (p : MPlane) (a b : Nat) : MPlane :=
  ⟨p.rows, p.cols,
    fun i j => if i = a ∧ j = b then none else p.data i j, p.mask⟩

/-- Mask one cell. -/
def setMasked (p : MPlane) (a b : Nat) : MPlane :=
  ⟨p.rows, p.cols, p.data,
    fun i j => if i = a ∧ j = b then true else p.mask i j⟩

/-- The normalisation modes of the neighbourhood averager (§4.2). -/
inductive Mode where
  | sum
  | mean
  | fraction
deriving DecidableEq

/-- Modelled from the spec: `SquareNeighbourhood.__init__`.  The
`sum_or_fraction` option must be one of the two supported strings;
anything else is a fatal configuration error at construction. -/
def snInit (sum_or_fraction : String) : Except ConfigError String :=
  if sum_or_fraction = "sum" ∨ sum_or_fraction = "fraction" then
    .ok sum_or_fraction
  else
    .error (.invalidSumOrFraction sum_or_fraction)

/-- Modelled from the spec: conversion of a physical radius to an
integer cell count by flooring against the grid spacing. -/
def cellRadius (radius spacing : ℚ) : Int :=
  Int.floor (radius / spacing)

/-- A cell is a valid neighbour when it lies on the grid, is not
masked and its payload is not NaN. -/
def validCell (p : MPlane) (i j : Nat) : Bool :=
  decide (i < p.rows) && decide (j < p.cols) && !p.mask i j
    && (p.data i j).isSome

/-- Number of valid neighbours in the square window of radius `r`
centred on `(i, j)`; out-of-bounds positions contribute nothing. -/
def windowCount (p : MPlane) (r i j : Nat) : Nat :=
  ∑ di ∈ Finset.range (2 * r + 1), ∑ dj ∈ Finset.range (2 * r + 1),
    if r ≤ i + di ∧ r ≤ j + dj ∧ validCell p (i + di - r) (j + dj - r)
    then 1 else 0

/-- Sum of the valid neighbours' values in the square window of radius
`r` centred on `(i, j)`. -/
def windowSum (p : MPlane) (r i j : Nat) : ℚ :=
  ∑ di ∈ Finset.range (2 * r + 1), ∑ dj ∈ Finset.range (2 * r + 1),
    if r ≤ i + di ∧ r ≤ j + dj ∧ validCell p (i + di - r) (j + dj - r)
    then (p.data (i + di - r) (j + dj - r)).getD 0 else 0

/-- Modelled from the spec: `SquareNeighbourhood.run` on one plane with
a cell-count radius `r`.  Every cell receives the windowed statistic
over its valid neighbours; a cell whose window holds no valid
neighbour becomes NaN under `mean`; a cell whose own payload was NaN
stays NaN (the cited NaN-fixture tests show NaN positions re-inserted
in the output); with `re_mask = true` the original input mask is
re-applied to the output, otherwise the output carries no mask. -/
def snRun (p : MPlane) (r : Nat) (mode : Mode) (re_mask : Bool) : MPlane :=
  ⟨p.rows, p.cols,
    fun i j =>
      if (p.data i j).isNone then none
      else
        match mode with
        | .sum => some (windowSum p r i j)
        | .mean =>
          if windowCount p r i j = 0 then none
          else some (windowSum p r i j / (windowCount p r i j : ℚ))
        | .fraction =>
          some ((windowCount p r i j : ℚ)
            / (((2 * r + 1) * (2 * r + 1) : Nat) : ℚ)),
    fun i j => if re_mask then p.mask i j else false⟩

/-- Maximum of two rationals, written explicitly. -/
def qmax (a b : ℚ) : ℚ := if a ≤ b then b else a

/-- Minimum of two rationals, written explicitly. -/
def qmin (a b : ℚ) : ℚ := if a ≤ b then a else b

/-- All in-range values of a plane as a list. -/
def gridVals (g : Grid) : List ℚ :=
  (List.range g.rows).flatMap (fun i => (List.range g.cols).map (g.val i))

/-- Peak-to-trough range of a plane: its maximum value minus its
minimum value. -/
def peak_to_trough (g : Grid) : ℚ :=
  (gridVals g).foldl qmax (g.val 0 0) - (gridVals g).foldl qmin (g.val 0 0)

/-- Closeness of a computed rational to a decimal the tests assert
with `assertAlmostEqual`. -/
abbrev approxEq (x c eps : ℚ) : Prop := c - eps < x ∧ x < c + eps

/-! Fixtures, taken from the unit tests. -/

/-- The 5x5 "+"-bump plane of `Test_RecursiveFilter.setUp`: zeros with
a plus-shaped bump (centre 0.5, its four neighbours 0.25, the four arm
ends 0.1). -/
def plusData : Nat → Nat → ℚ := fun i j =>
  if i = 2 ∧ j = 2 then 1/2
  else if (i = 1 ∨ i = 3) ∧ j = 2 then 1/4
  else if i = 2 ∧ (j = 1 ∨ j = 3) then 1/4
  else if (i = 0 ∨ i = 4) ∧ j = 2 then 1/10
  else if i = 2 ∧ (j = 0 ∨ j = 4) then 1/10
  else 0

/-- The "+"-bump fixture as a bare value plane. -/
def plusGrid : Grid := ⟨5, 5, plusData⟩

/-- The "+"-bump fixture as a maskable plane (no mask, no NaN). -/
def plusMPlane : MPlane :=
  ⟨5, 5, fun i j => some (plusData i j), fun _ _ => false⟩

/-- The 5x5 uniform alpha plane of value 0.5 (`alphas_cube1`). -/
def alphasHalf5 : Grid := constGrid 5 5 (1/2)

/-- The 5x5 uniform alpha plane of value 0.25 (`alphas_cube3`). -/
def alphasQuarter5 : Grid := constGrid 5 5 (1/4)

/-- The padded 9x9 alpha plane `set_alphas` produces for scalar 0.5. -/
def fixtureAlphasHalf : Grid := pad_cube_with_halo alphasHalf5 1 1

/-- The padded 9x9 alpha plane `set_alphas` produces for `alphas_cube3`. -/
def fixtureAlphasQuarter : Grid := pad_cube_with_halo alphasQuarter5 1 1

/-- The "+"-bump fixture padded as `run_recursion` receives it. -/
def paddedPlus : Grid := pad_cube_with_halo plusGrid 1 1

/-- The validated configuration used throughout the `Test_process`
fixtures: `alpha_x = alpha_y = 0.5`, one iteration, `edge_width 1`. -/
def cfgHalf : RFConfig := ⟨some (1/2), some (1/2), some 1, 1⟩

/-- The fixture of `test_alpha_floats_nan_in_masked_data`: the
"+"-bump with a NaN payload at (3,2) and a mask at (1,2). -/
def maskedPlusFixture : MPlane := setMasked (setNaN plusMPlane 3 2) 1 2

/-- Value lookup in a list-of-rows plane encoding. -/
def listVal (l : List (List ℚ)) (i j : Nat) : ℚ := (l.getD i []).getD j 0

/-- Boolean lookup in a list-of-rows encoding. -/
def listBool (l : List (List Bool)) (i j : Nat) : Bool :=
  (l.getD i []).getD j false

/-- The all-ones 5x5 plane with a single zero at the centre, the
fixture built by `set_up_cube(zero_point_indices=((0,0,2,2),))` in the
`SquareNeighbourhood` tests. -/
def onesZeroPlane : MPlane :=
  ⟨5, 5, fun i j => some (if i = 2 ∧ j = 2 then 0 else 1), fun _ _ => false⟩

/-- The data of the masked-array fixture of
`Test_run.test_masked_array_re_mask_true`. -/
def c10Data : List (List ℚ) :=
  [[1, 1, 0, 1, 1], [1, 1, 1, 0, 0], [1, 0, 1, 0, 0],
   [0, 0, 1, 1, 0], [0, 1, 1, 0, 1]]

/-- The validity array of that fixture (`true` = valid); the cube is
masked where this is `false`. -/
def c10Valid : List (List Bool) :=
  [[false, false, true, true, false],
   [false, true, true, true, false],
   [false, false, true, true, true],
   [false, false, true, true, false],
   [false, false, true, true, false]]

/-- The masked-array fixture as a maskable plane. -/
def c10Plane : MPlane :=
  ⟨5, 5, fun i j => some (listVal c10Data i j),
    fun i j => !(listBool c10Valid i j)⟩

/-- A 3x3 plane whose centre cell is unmasked but NaN while all eight
neighbours are masked: its window holds no valid neighbour at all. -/
def lonelyNaNPlane : MPlane :=
  ⟨3, 3, fun i j => if i = 1 ∧ j = 1 then none else some 1,
    fun i j => !(i = 1 && j = 1)⟩

/-- The `test_different_dimensional_alphas` result, sliced back down to
the source grid: x-direction alphas 0.5, y-direction alphas 0.25, one
iteration. -/
def biasResult : Grid :=
  strip_halo (run_recursion paddedPlus fixtureAlphasHalf
    fixtureAlphasQuarter 1) 2 2

/-! General lemmas about the embedded operations. -/

/-- The backward recurrence starts at the line's last cell with the
input value. -/
theorem bwdLine_last (f a : Nat → ℚ) (last : Nat) :
    bwdLine f a last last = f last := by
  simp [bwdLine, fwdLine]

/-- The backward recurrence satisfies the mirror step equation at every
index strictly before the last one. -/
theorem bwdLine_step (f a : Nat → ℚ) (last j : Nat) (h : j < last) :
    bwdLine f a last j = (1 - a j) * f j + a j * bwdLine f a last (j + 1) := by
  unfold bwdLine
  have h1 : last - j = (last - (j + 1)) + 1 := by omega
  have h2 : last - ((last - (j + 1)) + 1) = j := by omega
  rw [h1]
  simp only [fwdLine, h2]

/-- Zero-filling invalid cells produces the same working plane whether
a cell was invalidated by a NaN payload or by the mask. -/
theorem zeroed_nan_mask (p : MPlane) (a b : Nat) :
    zeroedGrid (setNaN p a b) = zeroedGrid (setMasked p a b) := by
  unfold zeroedGrid setNaN setMasked
  congr 1
  funext i j
  by_cases hij : i = a ∧ j = b
  · simp [hij]
  · simp [hij]

/-- A cell is a valid neighbour after NaN-ing cell `(a, b)` exactly
when it is a valid neighbour after masking cell `(a, b)`. -/
theorem validCell_nan_mask (p : MPlane) (a b : Nat) (i j : Nat) :
    validCell (setNaN p a b) i j = validCell (setMasked p a b) i j := by
  unfold validCell setNaN setMasked
  by_cases hij : i = a ∧ j = b
  · simp [hij]
  · simp [hij]

/-- At any cell that is still a valid neighbour, the payload is
untouched by NaN-ing or masking cell `(a, b)`. -/
theorem validData_nan_mask (p : MPlane) (a b x y : Nat)
    (h : validCell (setMasked p a b) x y = true) :
    (setNaN p a b).data x y = (setMasked p a b).data x y := by
  unfold validCell setMasked at h
  unfold setNaN setMasked
  by_cases hxy : x = a ∧ y = b
  · exfalso
    simp [hxy] at h
  · simp [hxy]

/-- Window counts agree between the NaN-ed and the masked plane. -/
theorem windowCount_nan_mask (p : MPlane) (a b r i j : Nat) :
    windowCount (setNaN p a b) r i j = windowCount (setMasked p a b) r i j := by
  unfold windowCount
  simp only [validCell_nan_mask p a b]

/-- Window sums agree between the NaN-ed and the masked plane. -/
theorem windowSum_nan_mask (p : MPlane) (a b r i j : Nat) :
    windowSum (setNaN p a b) r i j = windowSum (setMasked p a b) r i j := by
  unfold windowSum
  refine Finset.sum_congr rfl fun di _ => Finset.sum_congr rfl fun dj _ => ?_
  simp only [validCell_nan_mask p a b]
  by_cases h : r ≤ i + di ∧ r ≤ j + dj ∧
      validCell (setMasked p a b) (i + di - r) (j + dj - r) = true
  · rw [if_pos h, if_pos h, validData_nan_mask p a b _ _ h.2.2]
  · rw [if_neg h, if_neg h]

/-- The recursive filter's output values are identical whether a cell
was invalidated by NaN or by the mask. -/
theorem rfValue_nan_mask (ax ay : Grid) (ew iters : Nat) (p : MPlane)
    (a b i j : Nat) :
    rfValue ax ay ew iters (setNaN p a b) i j
      = rfValue ax ay ew iters (setMasked p a b) i j := by
  unfold rfValue
  rw [zeroed_nan_mask]

/-- When `rfProcess` succeeds, its output mask is the input mask. -/
theorem rfProcess_ok_mask (cfg : RFConfig) (p : MPlane)
    (axs ays : Option Grid) (out : MPlane)
    (h : rfProcess cfg p axs ays = .ok out) : out.mask = p.mask := by
  unfold rfProcess at h
  cases hax : set_alphas (zeroedGrid p) cfg.alpha_x axs cfg.edge_width with
  | error e => rw [hax] at h; exact absurd h (by simp)
  | ok ax =>
    rw [hax] at h
    cases hay : set_alphas (zeroedGrid p) cfg.alpha_y ays cfg.edge_width with
    | error e => rw [hay] at h; exact absurd h (by simp)
    | ok ay =>
      rw [hay] at h
      cases h
      rfl

/-! Claim theorems. -/

/-- C1 (counterexample): reading the recursion as the claim words it —
average the forward-pass and backward-pass results along x, then along
y on the x-smoothed plane — does not reproduce the documented fixture:
on the padded "+"-bump with the `set_alphas` result for scalar 0.5 and
one iteration, the centre of the original grid comes out as 17/80 =
0.2125, not approximately 0.13382206. -/
theorem run_recursion_averaged_refuted :
    set_alphas plusGrid (some (1/2)) none 1 = .ok fixtureAlphasHalf ∧
    (run_recursion_averaged paddedPlus fixtureAlphasHalf fixtureAlphasHalf
        1).val 4 4 = 17/80 ∧
    ¬ approxEq ((run_recursion_averaged paddedPlus fixtureAlphasHalf
        fixtureAlphasHalf 1).val 4 4) (13382206/100000000) (1/10000000) :=
  ⟨rfl, by decide, by decide⟩

/-- C1 (amended): `run_recursion` smooths each direction by applying
the forward pass and then the backward pass to the forward pass's
output (composition, not averaging), first along x and then along y on
the x-smoothed result, repeated for `iterations` total iterations with
each iteration consuming the previous iteration's output; on the
documented 5x5 "+"-bump fixture with alpha_x = alpha_y = 0.5,
iterations = 1, edge_width = 1, the value at the centre of the
original grid is approximately 0.13382206. -/
theorem run_recursion_composed_fixture :
    (∀ (g ax ay : Grid) (n : Nat),
      run_recursion g ax ay (n + 1)
        = run_recursion (filterStep g ax ay) ax ay n) ∧
    (∀ g ax ay : Grid,
      filterStep g ax ay
        = recurse_backward (recurse_forward
            (recurse_backward (recurse_forward g ax 1) ax 1) ay 0) ay 0) ∧
    set_alphas plusGrid (some (1/2)) none 1 = .ok fixtureAlphasHalf ∧
    approxEq ((run_recursion paddedPlus fixtureAlphasHalf fixtureAlphasHalf
        1).val 4 4) (13382206/100000000) (1/10000000) :=
  ⟨fun _ _ _ _ => rfl, fun _ _ _ => rfl, rfl, by decide⟩

/-- C2 (counterexample): the padding operation used by `set_alphas` and
`run_recursion` does not return a (rows + 2 halo, cols + 2 halo)
plane: a 5x5 plane padded by `pad_cube_with_halo` with halo parameter
1 per direction has 9 rows, not 7. -/
theorem pad_cube_not_two_per_side :
    (pad_cube_with_halo plusGrid 1 1).rows = 9 ∧
    (pad_cube_with_halo plusGrid 1 1).rows ≠ 7 := by
  constructor
  · rfl
  · decide

/-- C2 (amended): the primitive padder `pad_with_halo` adds `h_y` rows
and `h_x` columns per side, giving shape (rows + 2 h_y, cols + 2 h_x)
— 7x7 for a 5x5 plane with halo 1 — while `pad_cube_with_halo`, the
routine `set_alphas` and the recursive-filter pipeline call, pads with
twice its width parameter per side, giving (rows + 4 w_y, cols +
4 w_x): a 5x5 plane with width 1 becomes 9x9, and `set_alphas`
produces the per-direction alpha plane at that padded 9x9 shape. -/
theorem padding_shapes :
    (∀ (g : Grid) (hy hx : Nat),
      (pad_with_halo g hy hx).rows = g.rows + 2 * hy ∧
      (pad_with_halo g hy hx).cols = g.cols + 2 * hx) ∧
    (∀ (g : Grid) (wy wx : Nat),
      (pad_cube_with_halo g wy wx).rows = g.rows + 4 * wy ∧
      (pad_cube_with_halo g wy wx).cols = g.cols + 4 * wx) ∧
    (pad_with_halo plusGrid 1 1).rows = 7 ∧
    (pad_with_halo plusGrid 1 1).cols = 7 ∧
    set_alphas plusGrid (some (1/2)) none 1 = .ok fixtureAlphasHalf ∧
    fixtureAlphasHalf.rows = 9 ∧ fixtureAlphasHalf.cols = 9 ∧
    fixtureAlphasHalf.val 0 2 = 1/2 := by
  refine ⟨fun g hy hx => ⟨rfl, rfl⟩, fun g wy wx => ⟨?_, ?_⟩,
    rfl, rfl, rfl, rfl, rfl, by decide⟩
  · show g.rows + 2 * (2 * wy) = g.rows + 4 * wy
    omega
  · show g.cols + 2 * (2 * wx) = g.cols + 4 * wx
    omega

/-- C3 (confirmed): the one-directional passes satisfy exactly the
documented recurrences along either axis — forward output starts at
the first input cell and steps by
output = (1 - α)·input + α·previous output; backward is the mirror
from the last cell — and on the 5x5 "+"-bump fixture with uniform
alpha 0.5 they give 0.196875 at the end of the centre column (forward,
axis 0) and row (backward, axis 0), and 0.0125 at the end of an edge
row (axis 1). -/
theorem recurse_pass_recurrences :
    (∀ (g a : Grid) (i : Nat), (recurse_forward g a 1).val i 0 = g.val i 0) ∧
    (∀ (g a : Grid) (i j : Nat),
      (recurse_forward g a 1).val i (j + 1)
        = (1 - a.val i (j + 1)) * g.val i (j + 1)
          + a.val i (j + 1) * (recurse_forward g a 1).val i j) ∧
    (∀ (g a : Grid) (j : Nat), (recurse_forward g a 0).val 0 j = g.val 0 j) ∧
    (∀ (g a : Grid) (i j : Nat),
      (recurse_forward g a 0).val (i + 1) j
        = (1 - a.val (i + 1) j) * g.val (i + 1) j
          + a.val (i + 1) j * (recurse_forward g a 0).val i j) ∧
    (∀ (g a : Grid) (i : Nat),
      (recurse_backward g a 1).val i (g.cols - 1) = g.val i (g.cols - 1)) ∧
    (∀ (g a : Grid) (i j : Nat), j < g.cols - 1 →
      (recurse_backward g a 1).val i j
        = (1 - a.val i j) * g.val i j
          + a.val i j * (recurse_backward g a 1).val i (j + 1)) ∧
    (∀ (g a : Grid) (j : Nat),
      (recurse_backward g a 0).val (g.rows - 1) j = g.val (g.rows - 1) j) ∧
    (∀ (g a : Grid) (i j : Nat), i < g.rows - 1 →
      (recurse_backward g a 0).val i j
        = (1 - a.val i j) * g.val i j
          + a.val i j * (recurse_backward g a 0).val (i + 1) j) ∧
    (recurse_forward plusGrid alphasHalf5 0).val 4 2 = 63/320 ∧
    (recurse_forward plusGrid alphasHalf5 1).val 0 4 = 1/80 ∧
    (recurse_backward plusGrid alphasHalf5 0).val 0 2 = 63/320 ∧
    (recurse_backward plusGrid alphasHalf5 1).val 0 0 = 1/80 := by
  refine ⟨fun g a i => rfl, fun g a i j => rfl, fun g a j => rfl,
    fun g a i j => rfl,
    fun g a i => bwdLine_last _ _ _,
    fun g a i j h => bwdLine_step _ _ _ _ h,
    fun g a j =>
      bwdLine_last (fun k => g.val k j) (fun k => a.val k j) (g.rows - 1),
    fun g a i j h =>
      bwdLine_step (fun k => g.val k j) (fun k => a.val k j) (g.rows - 1) i h,
    by decide, by decide, by decide, by decide⟩

/-- C3 (witness): the backward step equation instantiated on the
"+"-bump fixture with uniform alpha 0.5, at row 0, column 1. -/
theorem recurse_pass_recurrences_witness :
    (1 : Nat) < plusGrid.cols - 1 ∧
    (recurse_backward plusGrid alphasHalf5 1).val 0 1
      = (1 - alphasHalf5.val 0 1) * plusGrid.val 0 1
        + alphasHalf5.val 0 1
          * (recurse_backward plusGrid alphasHalf5 1).val 0 2 :=
  ⟨by decide,
    recurse_pass_recurrences.2.2.2.2.2.1 plusGrid alphasHalf5 0 1 (by decide)⟩

/-- C4 (counterexample): on the 5x5 "+"-bump fixture the spec's §8
end-to-end example names (zeros with centre 0.5, neighbours 0.25,
outer ring 0.1), the neighbourhood averager with r = 1, mode mean and
re-masking does not produce corner cells equal to 1.0: the corner
window holds only zeros, so the corner value is 0. -/
theorem plus_bump_corner_not_one :
    (snRun plusMPlane 1 .mean true).data 0 0 = some 0 ∧
    (snRun plusMPlane 1 .mean true).data 0 0 ≠ some 1 := by
  exact ⟨by decide, by decide⟩

/-- C4 (amended): on the fixture the cited tests actually use — a 5x5
plane of ones with a single zero at the centre — the neighbourhood
averager run with a physical radius of 2500 m over 2000 m grid spacing
(which floors to r = 1 cell), mode mean and re-masking produces corner
cells equal to 1.0 and near-centre cells equal to 8/9, approximately
0.88888889; the output plane keeps the input plane's shape. -/
theorem neighbourhood_fixture_mean :
    cellRadius 2500 2000 = 1 ∧
    (∀ (p : MPlane) (r : Nat) (mode : Mode) (rm : Bool),
      (snRun p r mode rm).rows = p.rows ∧ (snRun p r mode rm).cols = p.cols) ∧
    (snRun onesZeroPlane 1 .mean true).data 0 0 = some 1 ∧
    (snRun onesZeroPlane 1 .mean true).data 0 4 = some 1 ∧
    (snRun onesZeroPlane 1 .mean true).data 4 0 = some 1 ∧
    (snRun onesZeroPlane 1 .mean true).data 4 4 = some 1 ∧
    (snRun onesZeroPlane 1 .mean true).data 1 1 = some (8/9) ∧
    (snRun onesZeroPlane 1 .mean true).data 2 2 = some (8/9) ∧
    approxEq (8/9) (88888889/100000000) (1/10000000) :=
  ⟨by decide, fun p r mode rm => ⟨rfl, rfl⟩, by decide, by decide, by decide,
    by decide, by decide, by decide, by decide⟩

/-- C5 (confirmed): replacing one valid cell's payload with NaN
produces the same output values as masking that same cell instead, all
other settings identical: for the neighbourhood averager at every
other cell, and for the recursive filter at every cell; in particular,
on the 5x5 "+"-bump fixture smoothed with alpha 0.5 and one iteration,
NaN at cell (3,2) and a mask at cell (3,2) give the same centre value,
approximately 0.11979733. -/
theorem nan_mask_equivalence :
    (∀ (p : MPlane) (a b : Nat) (r : Nat) (mode : Mode) (rm : Bool)
        (i j : Nat), validCell p a b = true → ¬(i = a ∧ j = b) →
      (snRun (setNaN p a b) r mode rm).data i j
        = (snRun (setMasked p a b) r mode rm).data i j) ∧
    (∀ (p : MPlane) (a b : Nat) (ax ay : Grid) (ew iters i j : Nat),
        p.mask a b = false → (p.data a b).isSome = true →
      rfValue ax ay ew iters (setNaN p a b) i j
        = rfValue ax ay ew iters (setMasked p a b) i j) ∧
    rfValue fixtureAlphasHalf fixtureAlphasHalf 1 1 (setNaN plusMPlane 3 2) 2 2
      = rfValue fixtureAlphasHalf fixtureAlphasHalf 1 1
          (setMasked plusMPlane 3 2) 2 2 ∧
    approxEq (rfValue fixtureAlphasHalf fixtureAlphasHalf 1 1
        (setNaN plusMPlane 3 2) 2 2) (11979733/100000000) (1/10000000) := by
  refine ⟨fun p a b r mode rm i j hvalid hij => ?_,
    fun p a b ax ay ew iters i j hm hd => rfValue_nan_mask ax ay ew iters p a b i j,
    rfValue_nan_mask _ _ _ _ _ _ _ _ _, by decide⟩
  show (if ((setNaN p a b).data i j).isNone then none else _)
      = (if ((setMasked p a b).data i j).isNone then none else _)
  have hdata : (setNaN p a b).data i j = (setMasked p a b).data i j := by
    unfold setNaN setMasked
    simp [hij]
  rw [hdata, windowSum_nan_mask, windowCount_nan_mask]

/-- C5 (witness): both equivalences instantiated on the "+"-bump
fixture at invalidated cell (3,2), observed at the centre cell (2,2),
whose hypotheses — the cell is valid beforehand, and the observed cell
differs from the invalidated one — hold there. -/
theorem nan_mask_equivalence_witness :
    validCell plusMPlane 3 2 = true ∧ ¬((2 : Nat) = 3 ∧ (2 : Nat) = 2) ∧
    plusMPlane.mask 3 2 = false ∧ ((plusMPlane.data 3 2).isSome = true) ∧
    (snRun (setNaN plusMPlane 3 2) 1 .mean true).data 2 2
      = (snRun (setMasked plusMPlane 3 2) 1 .mean true).data 2 2 ∧
    rfValue fixtureAlphasHalf fixtureAlphasHalf 1 1 (setNaN plusMPlane 3 2) 2 2
      = rfValue fixtureAlphasHalf fixtureAlphasHalf 1 1
          (setMasked plusMPlane 3 2) 2 2 :=
  ⟨by decide, by decide, rfl, rfl,
    nan_mask_equivalence.1 plusMPlane 3 2 1 .mean true 2 2 (by decide)
      (by decide),
    nan_mask_equivalence.2.1 plusMPlane 3 2 fixtureAlphasHalf
      fixtureAlphasHalf 1 1 2 2 rfl rfl⟩

set_option maxRecDepth 100000 in
/-- C6 (counterexample): on the documented 5x5 "+"-bump example,
decreasing alpha from 0.5 to 0.25 (all else equal: one iteration,
edge_width 1) strictly increases the peak-to-trough range of the
unpadded output — smaller alpha means weaker smoothing, not
stronger. -/
theorem decreasing_alpha_increases_range :
    set_alphas plusGrid none (some alphasQuarter5) 1
      = .ok fixtureAlphasQuarter ∧
    peak_to_trough (strip_halo (run_recursion paddedPlus
        fixtureAlphasQuarter fixtureAlphasQuarter 1) 2 2)
      > peak_to_trough (strip_halo (run_recursion paddedPlus
        fixtureAlphasHalf fixtureAlphasHalf 1) 2 2) :=
  ⟨rfl, by decide⟩

set_option maxRecDepth 100000 in
/-- C6 (amended): increasing alpha — which is the stronger smoothing,
since alpha is the weight on the recursive neighbour term — does not
increase the peak-to-trough range on the documented 5x5 example:
the range of the output with alpha 0.5 is at most the range of the
output with alpha 0.25, all else equal. -/
theorem smoothing_strength_monotone :
    peak_to_trough (strip_halo (run_recursion paddedPlus
        fixtureAlphasHalf fixtureAlphasHalf 1) 2 2)
      ≤ peak_to_trough (strip_halo (run_recursion paddedPlus
        fixtureAlphasQuarter fixtureAlphasQuarter 1) 2 2) := by
  decide

/-- C7 (counterexample): with x-direction alpha 0.5 and y-direction
alpha 0.25, one iteration and edge_width 1 on the documented 5x5
fixture, the off-axis cell reached along y does not exceed the one
reached along x: the result sliced back to the source grid satisfies
value(0,2) < value(2,0), not the claimed reverse. -/
theorem y_cell_does_not_exceed_x_cell :
    ¬ (biasResult.val 0 2 > biasResult.val 2 0) := by
  decide

/-- C7 (amended): with x-direction alpha 0.5 and y-direction alpha
0.25, one iteration and edge_width 1 on the documented 5x5 fixture,
the smoothed plane shows strictly less spreading along y than along x
— the off-axis cell reached along y is strictly less than the one
reached along x — and the documented fixture value at (2,1) is
approximately 0.15184643. -/
theorem directional_bias :
    set_alphas plusGrid none (some alphasHalf5) 1 = .ok fixtureAlphasHalf ∧
    set_alphas plusGrid none (some alphasQuarter5) 1
      = .ok fixtureAlphasQuarter ∧
    biasResult.val 0 2 < biasResult.val 2 0 ∧
    approxEq (biasResult.val 2 1) (15184643/100000000) (1/10000000) :=
  ⟨rfl, rfl, by decide, by decide⟩

/-- C8 (confirmed): every invalid configuration — a scalar alpha
outside the open interval (0,1) for either direction, iterations < 1,
an alphas plane whose shape mismatches the data, both or neither of
scalar alpha and alphas plane supplied for a direction, or an
unsupported averaging-mode string — makes the constructor or
`set_alphas` return a fatal error before any array computation, whose
value names the offending parameter and carries its invalid value
(rendered into the message); a successful construction stores the
parameters unchanged, never clamped. -/
theorem configuration_errors :
    (∀ a : ℚ, ¬(0 < a ∧ a < 1) → ∀ (ay : Option ℚ) (it : Option Int)
        (ew : Nat), rfInit (some a) ay it ew = .error (.invalidAlphaX a)) ∧
    (∀ a : ℚ, ¬(0 < a ∧ a < 1) → ∀ (it : Option Int) (ew : Nat),
      rfInit none (some a) it ew = .error (.invalidAlphaY a)) ∧
    (∀ n : Int, n < 1 → ∀ ew : Nat,
      rfInit none none (some n) ew = .error (.invalidIterations n)) ∧
    (∀ (g ac : Grid) (ew : Nat), ¬(ac.rows = g.rows ∧ ac.cols = g.cols) →
      set_alphas g none (some ac) ew
        = .error (.alphasShapeMismatch (ac.rows, ac.cols) (g.rows, g.cols))) ∧
    (∀ (g ac : Grid) (a : ℚ) (ew : Nat),
      set_alphas g (some a) (some ac) ew = .error .alphaAndCubeBothSet) ∧
    (∀ (g : Grid) (ew : Nat),
      set_alphas g none none ew = .error .alphaAndCubeBothUnset) ∧
    (∀ s : String, ¬(s = "sum" ∨ s = "fraction") →
      snInit s = .error (.invalidSumOrFraction s)) ∧
    (∀ (ax ay : Option ℚ) (it : Option Int) (ew : Nat) (cfg : RFConfig),
      rfInit ax ay it ew = .ok cfg → cfg = ⟨ax, ay, it, ew⟩) ∧
    (∀ a : ℚ, (ConfigError.invalidAlphaX a).message
      = "Invalid alpha_x: must be > 0 and < 1: " ++ toString a) ∧
    (∀ n : Int, (ConfigError.invalidIterations n).message
      = "Invalid number of iterations: must be >= 1: " ++ toString n) ∧
    (∀ s : String, (ConfigError.invalidSumOrFraction s).message
      = "The sum_or_fraction option is invalid: " ++ s) := by
  refine ⟨?_, ?_, ?_, ?_, ?_, ?_, ?_, ?_,
    fun a => rfl, fun n => rfl, fun s => rfl⟩
  · intro a h ay it ew
    simp [rfInit, checkAlpha, h]
  · intro a h it ew
    simp [rfInit, checkAlpha, h]
  · intro n h ew
    simp [rfInit, checkAlpha, h]
  · intro g ac ew h
    simp [set_alphas, h]
  · intro g ac a ew
    rfl
  · intro g ew
    rfl
  · intro s h
    simp [snInit, h]
  · intro ax ay it ew cfg h
    unfold rfInit at h
    cases hx : checkAlpha ax ConfigError.invalidAlphaX with
    | error e => rw [hx] at h; exact absurd h (by simp)
    | ok u =>
      rw [hx] at h
      cases hy : checkAlpha ay ConfigError.invalidAlphaY with
      | error e => rw [hy] at h; exact absurd h (by simp)
      | ok u2 =>
        rw [hy] at h
        dsimp only at h
        cases it with
        | none => cases h; rfl
        | some n =>
          dsimp only at h
          by_cases hn : n < 1
          · rw [if_pos hn] at h
            exact absurd h (by simp)
          · rw [if_neg hn] at h
            cases h
            rfl

/-- C8 (witness): the error paths instantiated at the concrete invalid
inputs the tests use — alpha_x = 1.1, alpha_y = -0.5, iterations = 0,
a 6x6 alphas plane against 5x5 data, both and neither alpha source,
and the mode string "nonsense" — each hypothesis holding by
computation. -/
theorem configuration_errors_witness :
    (¬((0:ℚ) < 11/10 ∧ (11/10:ℚ) < 1) ∧
      rfInit (some (11/10)) none none 1
        = .error (.invalidAlphaX (11/10))) ∧
    (¬((0:ℚ) < -(1/2) ∧ (-(1/2):ℚ) < 1) ∧
      rfInit none (some (-(1/2))) none 1
        = .error (.invalidAlphaY (-(1/2)))) ∧
    ((0:Int) < 1 ∧
      rfInit none none (some 0) 1 = .error (.invalidIterations 0)) ∧
    (¬((constGrid 6 6 (1/2)).rows = plusGrid.rows ∧
        (constGrid 6 6 (1/2)).cols = plusGrid.cols) ∧
      set_alphas plusGrid none (some (constGrid 6 6 (1/2))) 1
        = .error (.alphasShapeMismatch (6, 6) (5, 5))) ∧
    set_alphas plusGrid (some (1/2)) (some alphasHalf5) 1
      = .error .alphaAndCubeBothSet ∧
    set_alphas plusGrid none none 1 = .error .alphaAndCubeBothUnset ∧
    (¬("nonsense" = "sum" ∨ "nonsense" = "fraction") ∧
      snInit "nonsense" = .error (.invalidSumOrFraction "nonsense")) :=
  ⟨⟨by decide, configuration_errors.1 (11/10) (by decide) none none 1⟩,
    ⟨by decide, configuration_errors.2.1 (-(1/2)) (by decide) none 1⟩,
    ⟨by decide, configuration_errors.2.2.1 0 (by decide) 1⟩,
    ⟨by decide,
      configuration_errors.2.2.2.1 plusGrid (constGrid 6 6 (1/2)) 1
        (by decide)⟩,
    configuration_errors.2.2.2.2.1 plusGrid alphasHalf5 (1/2) 1,
    configuration_errors.2.2.2.2.2.1 plusGrid 1,
    ⟨by decide,
      configuration_errors.2.2.2.2.2.2.1 "nonsense" (by decide)⟩⟩

/-- C9 (confirmed): the recursive filter re-applies the original
validity mask to the final unpadded result: whenever `rfProcess`
succeeds, every cell masked in the input is masked in the output, and
no input-unmasked cell (in particular none supplying a finite numeric
payload) surfaces as masked. -/
theorem mask_reapplied :
    ∀ (cfg : RFConfig) (p : MPlane) (axs ays : Option Grid) (out : MPlane),
      rfProcess cfg p axs ays = .ok out →
      (∀ i j, p.mask i j = true → out.mask i j = true) ∧
      (∀ i j, p.mask i j = false → out.mask i j = false) := by
  intro cfg p axs ays out h
  have hm : out.mask = p.mask := rfProcess_ok_mask cfg p axs ays out h
  constructor
  · intro i j hij
    rw [hm]
    exact hij
  · intro i j hij
    rw [hm]
    exact hij

/-- C9 (witness): `rfProcess` on the masked "+"-bump fixture with
scalar alphas 0.5 succeeds, the cell (1,2) masked in the input is
masked in the output, and the unmasked centre cell (2,2) stays
unmasked. -/
theorem mask_reapplied_witness :
    rfProcess cfgHalf maskedPlusFixture none none
      = .ok (rfProcessRun fixtureAlphasHalf fixtureAlphasHalf 1 1
          maskedPlusFixture) ∧
    maskedPlusFixture.mask 1 2 = true ∧
    (rfProcessRun fixtureAlphasHalf fixtureAlphasHalf 1 1
      maskedPlusFixture).mask 1 2 = true ∧
    maskedPlusFixture.mask 2 2 = false ∧
    (rfProcessRun fixtureAlphasHalf fixtureAlphasHalf 1 1
      maskedPlusFixture).mask 2 2 = false :=
  ⟨rfl, rfl,
    (mask_reapplied cfgHalf maskedPlusFixture none none
      (rfProcessRun fixtureAlphasHalf fixtureAlphasHalf 1 1
        maskedPlusFixture) rfl).1 1 2 rfl,
    rfl,
    (mask_reapplied cfgHalf maskedPlusFixture none none
      (rfProcessRun fixtureAlphasHalf fixtureAlphasHalf 1 1
        maskedPlusFixture) rfl).2 2 2 rfl⟩

/-- C10 (confirmed): with re-masking on, the neighbourhood averager's
output mask equals the input mask exactly, for every plane and radius;
on the cited masked fixture the input-masked cell (3,0) stays masked
even though its computed value is NaN (its window holds no valid
neighbour), unmasked cells such as (0,2) stay unmasked, and on a plane
whose unmasked centre has no valid neighbour at all the centre value
is NaN while the centre stays unmasked. -/
theorem re_mask_true_mask_equals_input :
    (∀ (p : MPlane) (r : Nat),
      (snRun p r .mean true).mask = p.mask) ∧
    (snRun c10Plane 1 .mean true).data 0 1 = some (2/3) ∧
    (snRun c10Plane 1 .mean true).data 2 2 = some (5/7) ∧
    (snRun c10Plane 1 .mean true).data 3 0 = none ∧
    c10Plane.mask 3 0 = true ∧
    (snRun c10Plane 1 .mean true).mask 3 0 = true ∧
    c10Plane.mask 0 2 = false ∧
    (snRun c10Plane 1 .mean true).mask 0 2 = false ∧
    windowCount lonelyNaNPlane 1 1 1 = 0 ∧
    (snRun lonelyNaNPlane 1 .mean true).data 1 1 = none ∧
    lonelyNaNPlane.mask 1 1 = false ∧
    (snRun lonelyNaNPlane 1 .mean true).mask 1 1 = false :=
  ⟨fun p r => rfl, by decide, by decide, by decide, by decide, by decide,
    by decide, by decide, by decide, by decide, by decide, by decide⟩

end Improver
